import Mathlib

/-!
Shallow embedding of `qtm/packet.py` (QTM real-time packet decoder).

A packet is a byte buffer: a 16-byte header (timestamp, frame number,
component count), a directory of `{size, type}` entries, and per-component
payloads.  Bytes are modelled as naturals (reduced mod 256 when read);
multi-byte integers are little-endian; float fields are kept as their raw
little-endian 32-bit patterns (no float arithmetic is ever performed by the
decoder).  `struct.unpack_from` is modelled by bounds-checked reads that
fail with a `truncated` error, mirroring `struct.error`; an unrecognised
component tag fails with `unknownKind`, mirroring the `ValueError` raised
by the `QRTComponentType` constructor.
-/

namespace Qtm

/-- A byte buffer: bytes as naturals, each taken mod 256 when read. -/
abbrev Bytes := List Nat

/-- Python slice `data[off : off + n]` (clamped at the ends). -/
def sliceBytes (data : Bytes) (off n : Nat) : Bytes := (data.drop off).take n

/-- Little-endian value of a byte list. -/
def leNat : Bytes → Nat
  | [] => 0
  | b :: bs => b % 256 + 256 * leNat bs

/-- Two's-complement signed value of a 32-bit word (struct code `i`). -/
def sign32 (n : Nat) : Int := if n < 2 ^ 31 then (n : Int) else (n : Int) - 2 ^ 32

/-- Two's-complement signed value of a 16-bit word (struct code `h`). -/
def sign16 (n : Nat) : Int := if n < 2 ^ 15 then (n : Int) else (n : Int) - 2 ^ 16

/-- Two's-complement signed value of a 64-bit word (struct code `q`). -/
def sign64 (n : Nat) : Int := if n < 2 ^ 63 then (n : Int) else (n : Int) - 2 ^ 64

/-- Bounds discipline of `struct.unpack_from` at a non-negative offset:
the read succeeds iff `off + n ≤ data.length`. -/
def readBytes (data : Bytes) (off n : Nat) : Option Bytes :=
  if off + n ≤ data.length then some (sliceBytes data off n) else none

/-- Bounds discipline of `struct.unpack_from` at a possibly negative
offset: a negative offset counts from the end of the buffer. -/
def readBytesAt (data : Bytes) (off : Int) (n : Nat) : Option Bytes :=
  let e : Int := if off < 0 then (data.length : Int) + off else off
  if 0 ≤ e ∧ e + n ≤ (data.length : Int) then some (sliceBytes data e.toNat n)
  else none

/-- Unsigned 32-bit field at byte index `i` of an unpacked chunk. -/
def u32 (bs : Bytes) (i : Nat) : Nat := leNat (sliceBytes bs i 4)

/-- Signed 32-bit field at byte index `i` of an unpacked chunk. -/
def i32 (bs : Bytes) (i : Nat) : Int := sign32 (u32 bs i)

/-- Signed 16-bit field at byte index `i` of an unpacked chunk. -/
def i16 (bs : Bytes) (i : Nat) : Int := sign16 (leNat (sliceBytes bs i 2))

/-- Decoding failures: `truncated` mirrors `struct.error` on a short read,
`unknownKind` mirrors the `ValueError` raised for an unrecognised
component tag. -/
inductive DecodeError where
  | truncated : DecodeError
  | unknownKind : Nat → DecodeError
deriving DecidableEq, Repr

/-- The 18 QTM component kinds (`QRTComponentType`). -/
inductive QRTComponentType where
  | Component3d
  | Component3dNoLabels
  | ComponentAnalog
  | ComponentForce
  | Component6d
  | Component6dEuler
  | Component2d
  | Component2dLin
  | Component3dRes
  | Component3dNoLabelsRes
  | Component6dRes
  | Component6dEulerRes
  | ComponentAnalogSingle
  | ComponentImage
  | ComponentForceSingle
  | ComponentGazeVector
  | ComponentTimecode
  | ComponentSkeleton
deriving DecidableEq, Repr

/-- Wire tag of each component kind (`QRTComponentType(c_type)`). -/
def ofTag : Nat → Option QRTComponentType
  | 1 => some .Component3d
  | 2 => some .Component3dNoLabels
  | 3 => some .ComponentAnalog
  | 4 => some .ComponentForce
  | 5 => some .Component6d
  | 6 => some .Component6dEuler
  | 7 => some .Component2d
  | 8 => some .Component2dLin
  | 9 => some .Component3dRes
  | 10 => some .Component3dNoLabelsRes
  | 11 => some .Component6dRes
  | 12 => some .Component6dEulerRes
  | 13 => some .ComponentAnalogSingle
  | 14 => some .ComponentImage
  | 15 => some .ComponentForceSingle
  | 16 => some .ComponentGazeVector
  | 17 => some .ComponentTimecode
  | 18 => some .ComponentSkeleton
  | _ => none

/-- Directory entry record `RTComponentData`, struct `"<II"` (8 bytes). -/
structure RTComponentData where
  size : Nat
  typeTag : Nat
deriving DecidableEq, Repr

/-- Unpack one directory entry (`RTComponentData.unpack_from`), returning
the advanced position as `_get_exact` would. -/
def getRTComponentData (data : Bytes) (pos : Nat) :
    Except DecodeError (Nat × RTComponentData) :=
  match readBytes data pos 8 with
  | none => .error .truncated
  | some bs => .ok (pos + 8, ⟨u32 bs 0, u32 bs 4⟩)

/-- Decoded packet object: buffer, top-level header fields, and the
component directory.  The directory is the Python dict built in
`QRTPacket.__init__`, modelled as an association list where the most
recent binding is consed to the front (so lookup finds the latest one,
matching dict assignment). -/
structure QRTPacket where
  data : Bytes
  timestamp : Int
  framenumber : Nat
  components : List (QRTComponentType × Nat)
deriving DecidableEq, Repr

/-- Python `dict.get`: the most recently inserted binding wins. -/
def dictGet (comps : List (QRTComponentType × Nat)) (k : QRTComponentType) :
    Option Nat :=
  (comps.find? (fun e => e.1 == k)).map (fun e => e.2)

/-- The directory scan loop of `QRTPacket.__init__`: for each of the
`component_count` entries, read `(size, type)` at the cursor, record the
payload offset `cursor + 8` for that kind, and advance the cursor by the
declared `size`. -/
def scanComponents (data : Bytes) :
    Nat → Nat → List (QRTComponentType × Nat) →
    Except DecodeError (List (QRTComponentType × Nat))
  | 0, _, acc => .ok acc
  | n + 1, pos, acc =>
    match getRTComponentData data pos with
    | .error e => .error e
    | .ok (_, cd) =>
      match ofTag cd.typeTag with
      | none => .error (.unknownKind cd.typeTag)
      | some k => scanComponents data n (pos + cd.size) ((k, pos + 8) :: acc)

/-- `QRTPacket.__init__`: unpack the 16-byte `RTDataQRTPacket` header
(`"<qII"`: timestamp, frame number, component count) and walk the
directory. -/
def packetInit (data : Bytes) : Except DecodeError QRTPacket :=
  match readBytes data 0 16 with
  | none => .error .truncated
  | some hs =>
    match scanComponents data (u32 hs 12) 16 [] with
    | .error e => .error e
    | .ok comps => .ok ⟨data, sign64 (leNat (sliceBytes hs 0 8)), u32 hs 8, comps⟩

/-- A directory entry as laid out in the buffer: its entry offset, its
declared size and its kind.  Used to state properties of the scan. -/
structure DirEntry where
  pos : Nat
  size : Nat
  kind : QRTComponentType
deriving DecidableEq, Repr

/-- Specification view of the directory walk: the list of entries the
scan visits, in buffer order. -/
def dirEntries (data : Bytes) : Nat → Nat → Except DecodeError (List DirEntry)
  | 0, _ => .ok []
  | n + 1, pos =>
    match getRTComponentData data pos with
    | .error e => .error e
    | .ok (_, cd) =>
      match ofTag cd.typeTag with
      | none => .error (.unknownKind cd.typeTag)
      | some k =>
        match dirEntries data n (pos + cd.size) with
        | .error e => .error e
        | .ok es => .ok (⟨pos, cd.size, k⟩ :: es)

/-- Binding contributed to the directory dict by one entry. -/
def entryBinding (e : DirEntry) : QRTComponentType × Nat := (e.kind, e.pos + 8)

/-- The `ComponentGetter` dispatcher: look the kind up in the directory
(`None` when absent), unpack the component's fixed header record with the
kind's base struct, then run the per-kind decode body from the advanced
position, returning the `(header, payload)` pair. -/
def componentGetter {I A : Type} (p : QRTPacket) (kind : QRTComponentType)
    (base : Bytes → Nat → Except DecodeError (Nat × I))
    (dec : I → Bytes → Nat → Except DecodeError A) :
    Except DecodeError (Option (I × A)) :=
  match dictGet p.components kind with
  | none => .ok none
  | some pos =>
    match base p.data pos with
    | .error e => .error e
    | .ok (pos', info) =>
      match dec info p.data pos' with
      | .error e => .error e
      | .ok a => .ok (some (info, a))

/-- Component header `RT3DComponent`, struct `"<Ihh"` (8 bytes):
marker_count (unsigned), drop_rate, out_of_sync_rate. -/
structure RT3DComponent where
  marker_count : Nat
  drop_rate : Int
  out_of_sync_rate : Int
deriving DecidableEq, Repr

def getRT3DComponent (data : Bytes) (pos : Nat) :
    Except DecodeError (Nat × RT3DComponent) :=
  match readBytes data pos 8 with
  | none => .error .truncated
  | some bs => .ok (pos + 8, ⟨u32 bs 0, i16 bs 4, i16 bs 6⟩)

/-- Marker record `RT3DMarkerPosition`, struct `"<3f"` (12 bytes); the
three float coordinates are kept as raw 32-bit patterns. -/
structure RT3DMarkerPosition where
  x : Nat
  y : Nat
  z : Nat
deriving DecidableEq, Repr

def getRT3DMarkerPosition (data : Bytes) (pos : Nat) :
    Except DecodeError (Nat × RT3DMarkerPosition) :=
  match readBytes data pos 12 with
  | none => .error .truncated
  | some bs => .ok (pos + 12, ⟨u32 bs 0, u32 bs 4, u32 bs 8⟩)

/-- The marker loop of `_get_3d_markers` (for the plain 3D kind): read
`marker_count` fixed 12-byte records, appending in order. -/
def markers3dWalk (data : Bytes) :
    Nat → Nat → Except DecodeError (List RT3DMarkerPosition × Nat)
  | 0, pos => .ok ([], pos)
  | n + 1, pos =>
    match getRT3DMarkerPosition data pos with
    | .error e => .error e
    | .ok (pos', m) =>
      match markers3dWalk data n pos' with
      | .error e => .error e
      | .ok (ms, e) => .ok (m :: ms, e)

/-- Accessor `get_3d_markers` (the decorated method returns only the
marker list, dropping the loop's final position). -/
def get3dMarkers (p : QRTPacket) :
    Except DecodeError (Option (RT3DComponent × List RT3DMarkerPosition)) :=
  componentGetter p .Component3d getRT3DComponent
    (fun info data pos => (markers3dWalk data info.marker_count pos).map (fun r => r.1))

/-- Component header `RT2DComponent`, struct `"<Ihh"` (8 bytes):
camera_count (unsigned), drop_rate, out_of_sync_rate. -/
structure RT2DComponent where
  camera_count : Nat
  drop_rate : Int
  out_of_sync_rate : Int
deriving DecidableEq, Repr

def getRT2DComponent (data : Bytes) (pos : Nat) :
    Except DecodeError (Nat × RT2DComponent) :=
  match readBytes data pos 8 with
  | none => .error .truncated
  | some bs => .ok (pos + 8, ⟨u32 bs 0, i16 bs 4, i16 bs 6⟩)

/-- Camera header `RT2DCamera`, struct `"<ic"` (5 bytes): marker_count is
a signed 32-bit int, status_flag a single byte.  Positions inside the 2D
walk are integers: the skip arithmetic can drive them negative. -/
structure RT2DCamera where
  marker_count : Int
  status_flag : Nat
deriving DecidableEq, Repr

def getRT2DCamera (data : Bytes) (pos : Int) :
    Except DecodeError (Int × RT2DCamera) :=
  match readBytesAt data pos 5 with
  | none => .error .truncated
  | some bs => .ok (pos + 5, ⟨i32 bs 0, leNat (sliceBytes bs 4 1)⟩)

/-- Marker record `RT2DMarker`, struct `"<iihh"` (12 bytes). -/
structure RT2DMarker where
  x : Int
  y : Int
  d_x : Int
  d_y : Int
deriving DecidableEq, Repr

def getRT2DMarker (data : Bytes) (pos : Int) :
    Except DecodeError (Int × RT2DMarker) :=
  match readBytesAt data pos 12 with
  | none => .error .truncated
  | some bs => .ok (pos + 12, ⟨i32 bs 0, i32 bs 4, i16 bs 8, i16 bs 10⟩)

/-- The inner marker loop of `_get_2d_markers` for a materialized camera:
`range(camera_info.marker_count)` iterations (none when the signed count
is negative), each reading one 12-byte marker. -/
def read2dMarkers (data : Bytes) :
    Nat → Int → Except DecodeError (List RT2DMarker × Int)
  | 0, pos => .ok ([], pos)
  | n + 1, pos =>
    match getRT2DMarker data pos with
    | .error e => .error e
    | .ok (pos', m) =>
      match read2dMarkers data n pos' with
      | .error e => .error e
      | .ok (ms, e) => .ok (m :: ms, e)

/-- The camera loop of `_get_2d_markers`: `cam` is the index of the next
camera, `n` the number of cameras left.  With `index = none` every
camera's marker list is materialized; with `index = some i`, a camera
whose index differs from `i` is skipped by the offset arithmetic
`pos + 12 * marker_count` (no marker reads, no bounds check, and no entry
in the result).  The per-camera status flag is read but never returned. -/
def walk2d (data : Bytes) (index : Option Int) :
    Nat → Nat → Int → Except DecodeError (List (List RT2DMarker) × Int)
  | _, 0, pos => .ok ([], pos)
  | cam, n + 1, pos =>
    match getRT2DCamera data pos with
    | .error e => .error e
    | .ok (pos₁, ci) =>
      if index = none ∨ index = some (cam : Int) then
        match read2dMarkers data ci.marker_count.toNat pos₁ with
        | .error e => .error e
        | .ok (ms, pos₂) =>
          match walk2d data index (cam + 1) n pos₂ with
          | .error e => .error e
          | .ok (rest, e) => .ok (ms :: rest, e)
      else
        walk2d data index (cam + 1) n (pos₁ + 12 * ci.marker_count)

/-- Accessor `get_2d_markers` (also the decode body of
`get_2d_markers_linearized`, which shares `_get_2d_markers`). -/
def get2dMarkers (p : QRTPacket) (index : Option Int) :
    Except DecodeError (Option (RT2DComponent × List (List RT2DMarker))) :=
  componentGetter p .Component2d getRT2DComponent
    (fun info data pos =>
      (walk2d data index 0 info.camera_count (pos : Int)).map (fun r => r.1))

/-- Component header `RTAnalogComponent`, struct `"<i"` (4 bytes). -/
structure RTAnalogComponent where
  device_count : Int
deriving DecidableEq, Repr

def getRTAnalogComponent (data : Bytes) (pos : Nat) :
    Except DecodeError (Nat × RTAnalogComponent) :=
  match readBytes data pos 4 with
  | none => .error .truncated
  | some bs => .ok (pos + 4, ⟨i32 bs 0⟩)

/-- Device header `RTAnalogDevice`, struct `"<iii"` (12 bytes). -/
structure RTAnalogDevice where
  id : Int
  channel_count : Int
  sample_count : Int
deriving DecidableEq, Repr

def getRTAnalogDevice (data : Bytes) (pos : Nat) :
    Except DecodeError (Nat × RTAnalogDevice) :=
  match readBytes data pos 12 with
  | none => .error .truncated
  | some bs => .ok (pos + 12, ⟨i32 bs 0, i32 bs 4, i32 bs 8⟩)

/-- Sample-number record `RTSampleNumber`, struct `"<i"` (4 bytes). -/
structure RTSampleNumber where
  sample_number : Int
deriving DecidableEq, Repr

def getRTSampleNumber (data : Bytes) (pos : Nat) :
    Except DecodeError (Nat × RTSampleNumber) :=
  match readBytes data pos 4 with
  | none => .error .truncated
  | some bs => .ok (pos + 4, ⟨i32 bs 0⟩)

/-- Group a byte list into little-endian 32-bit words (raw float
patterns). -/
def leWords : Bytes → List Nat
  | b0 :: b1 :: b2 :: b3 :: rest => leNat [b0, b1, b2, b3] :: leWords rest
  | _ => []

/-- One analog channel: its `sample_count` float samples, kept as raw
32-bit patterns. -/
structure RTAnalogChannel where
  samples : List Nat
deriving DecidableEq, Repr

/-- One `_get_tuple(RTAnalogChannel, ...)` read.  The struct used is the
current binding of the module-level `RTAnalogChannel.format`, a mutable
attribute rebound by `get_analog` before each device's channel loop; it
is modelled as explicit state: `some k` is the struct `"<kf"` (4*k
bytes), `none` the initially absent attribute, through which no read can
succeed. -/
def getRTAnalogChannel (fmt : Option Nat) (data : Bytes) (pos : Nat) :
    Except DecodeError (Nat × RTAnalogChannel) :=
  match fmt with
  | none => .error .truncated
  | some k =>
    match readBytes data pos (4 * k) with
    | none => .error .truncated
    | some bs => .ok (pos + 4 * k, ⟨leWords bs⟩)

/-- The channel loop of `get_analog`: `range(device.channel_count)`
reads through the current `RTAnalogChannel.format` binding. -/
def readChannels (fmt : Option Nat) (data : Bytes) :
    Nat → Nat → Except DecodeError (List RTAnalogChannel × Nat)
  | 0, pos => .ok ([], pos)
  | n + 1, pos =>
    match getRTAnalogChannel fmt data pos with
    | .error e => .error e
    | .ok (pos', c) =>
      match readChannels fmt data n pos' with
      | .error e => .error e
      | .ok (cs, e) => .ok (c :: cs, e)

/-- One device iteration of `get_analog`: read the 12-byte device header;
when `sample_count > 0`, read the sample number, rebind the shared
channel format to `sample_count` and read `channel_count` channels,
emitting one `(device, sample_number, channel)` triple per channel; when
`sample_count ≤ 0`, nothing further is read and the shared format is left
as it was. -/
def analogDeviceStep (fmt : Option Nat) (data : Bytes) (pos : Nat) :
    Except DecodeError
      (List (RTAnalogDevice × RTSampleNumber × RTAnalogChannel) × Nat × Option Nat) :=
  match getRTAnalogDevice data pos with
  | .error e => .error e
  | .ok (pos₁, dev) =>
    if 0 < dev.sample_count then
      match getRTSampleNumber data pos₁ with
      | .error e => .error e
      | .ok (pos₂, sn) =>
        let fmt₁ : Option Nat := some dev.sample_count.toNat
        match readChannels fmt₁ data dev.channel_count.toNat pos₂ with
        | .error e => .error e
        | .ok (chs, pos₃) => .ok (chs.map (fun c => (dev, sn, c)), pos₃, fmt₁)
    else .ok ([], pos₁, fmt)

/-- The device loop of `get_analog`, threading the shared
`RTAnalogChannel.format` state through the iterations. -/
def analogDevicesWalk (data : Bytes) :
    Nat → Option Nat → Nat →
    Except DecodeError
      (List (RTAnalogDevice × RTSampleNumber × RTAnalogChannel) × Nat × Option Nat)
  | 0, fmt, pos => .ok ([], pos, fmt)
  | n + 1, fmt, pos =>
    match analogDeviceStep fmt data pos with
    | .error e => .error e
    | .ok (ts, pos', fmt') =>
      match analogDevicesWalk data n fmt' pos' with
      | .error e => .error e
      | .ok (rest, e, fmt'') => .ok (ts ++ rest, e, fmt'')

/-- Accessor `get_analog`.  `fmt` is the binding of the module-level
`RTAnalogChannel.format` left behind by earlier decode calls. -/
def getAnalog (fmt : Option Nat) (p : QRTPacket) :
    Except DecodeError
      (Option (RTAnalogComponent ×
        List (RTAnalogDevice × RTSampleNumber × RTAnalogChannel))) :=
  componentGetter p .ComponentAnalog getRTAnalogComponent
    (fun info data pos =>
      (analogDevicesWalk data info.device_count.toNat fmt pos).map (fun r => r.1))

/-- Device header `RTAnalogDeviceSingle`, struct `"<ii"` (8 bytes). -/
structure RTAnalogDeviceSingle where
  id : Int
  channel_count : Int
deriving DecidableEq, Repr

def getRTAnalogDeviceSingle (data : Bytes) (pos : Nat) :
    Except DecodeError (Nat × RTAnalogDeviceSingle) :=
  match readBytes data pos 8 with
  | none => .error .truncated
  | some bs => .ok (pos + 8, ⟨i32 bs 0, i32 bs 4⟩)

/-- Per-device samples record of `get_analog_single`, raw 32-bit float
patterns, read through the module-level `RTAnalogDeviceSamples.format`
binding (modelled as state like the channel format). -/
structure RTAnalogDeviceSamples where
  samples : List Nat
deriving DecidableEq, Repr

def getRTAnalogDeviceSamples (fmt : Option Nat) (data : Bytes) (pos : Nat) :
    Except DecodeError (Nat × RTAnalogDeviceSamples) :=
  match fmt with
  | none => .error .truncated
  | some k =>
    match readBytes data pos (4 * k) with
    | none => .error .truncated
    | some bs => .ok (pos + 4 * k, ⟨leWords bs⟩)

/-- The device loop of `get_analog_single`: per device read the 8-byte
header, rebind the shared samples format to `channel_count` and read one
samples record.  A negative `channel_count` makes the format string
`"<-nf"` invalid, which `struct.Struct` rejects with `struct.error`,
modelled as the `truncated` decode error. -/
def analogSingleWalk (data : Bytes) :
    Nat → Option Nat → Nat →
    Except DecodeError
      (List (RTAnalogDeviceSingle × RTAnalogDeviceSamples) × Nat × Option Nat)
  | 0, fmt, pos => .ok ([], pos, fmt)
  | n + 1, fmt, pos =>
    match getRTAnalogDeviceSingle data pos with
    | .error e => .error e
    | .ok (pos₁, dev) =>
      if 0 ≤ dev.channel_count then
        let fmt₁ : Option Nat := some dev.channel_count.toNat
        match getRTAnalogDeviceSamples fmt₁ data pos₁ with
        | .error e => .error e
        | .ok (pos₂, s) =>
          match analogSingleWalk data n fmt₁ pos₂ with
          | .error e => .error e
          | .ok (rest, e, fmt') => .ok ((dev, s) :: rest, e, fmt')
      else .error .truncated

/-- Accessor `get_analog_single`.  `fmt` is the binding of the
module-level `RTAnalogDeviceSamples.format` left behind by earlier decode
calls. -/
def getAnalogSingle (fmt : Option Nat) (p : QRTPacket) :
    Except DecodeError
      (Option (RTAnalogComponent ×
        List (RTAnalogDeviceSingle × RTAnalogDeviceSamples))) :=
  componentGetter p .ComponentAnalogSingle getRTAnalogComponent
    (fun info data pos =>
      (analogSingleWalk data info.device_count.toNat fmt pos).map (fun r => r.1))

/-- Component header `RTImageComponent`, struct `"<i"` (4 bytes). -/
structure RTImageComponent where
  image_count : Int
deriving DecidableEq, Repr

def getRTImageComponent (data : Bytes) (pos : Nat) :
    Except DecodeError (Nat × RTImageComponent) :=
  match readBytes data pos 4 with
  | none => .error .truncated
  | some bs => .ok (pos + 4, ⟨i32 bs 0⟩)

/-- Image header `RTImage`, struct `"<iiiiffffi"` (36 bytes); the four
crop floats are kept as raw 32-bit patterns. -/
structure RTImage where
  id : Int
  format : Int
  width : Int
  height : Int
  left_crop : Nat
  top_crop : Nat
  right_crop : Nat
  bottom_crop : Nat
  image_size : Int
deriving DecidableEq, Repr

def getRTImage (data : Bytes) (pos : Nat) :
    Except DecodeError (Nat × RTImage) :=
  match readBytes data pos 36 with
  | none => .error .truncated
  | some bs =>
    .ok (pos + 36,
      ⟨i32 bs 0, i32 bs 4, i32 bs 8, i32 bs 12,
       u32 bs 16, u32 bs 20, u32 bs 24, u32 bs 28, i32 bs 32⟩)

/-- The image loop of `get_image`: per image, read the fixed 36-byte
`RTImage` header, then take `data[component_position:-1]` — all bytes
from the position after the header up to, but excluding, the buffer's
final byte — as the payload.  The position is advanced only past the
header, never past the payload. -/
def imagesWalk (data : Bytes) :
    Nat → Nat → Except DecodeError (List (RTImage × Bytes) × Nat)
  | 0, pos => .ok ([], pos)
  | n + 1, pos =>
    match getRTImage data pos with
    | .error e => .error e
    | .ok (pos', img) =>
      let payload := sliceBytes data pos' (data.length - 1 - pos')
      match imagesWalk data n pos' with
      | .error e => .error e
      | .ok (rest, e) => .ok ((img, payload) :: rest, e)

/-- Accessor `get_image`. -/
def getImage (p : QRTPacket) :
    Except DecodeError (Option (RTImageComponent × List (RTImage × Bytes))) :=
  componentGetter p .ComponentImage getRTImageComponent
    (fun info data pos =>
      (imagesWalk data info.image_count.toNat pos).map (fun r => r.1))

/-- Entries are laid out consecutively: each starts where declared and
the next starts after the declared size. -/
def entriesChained (pos : Nat) : List DirEntry → Prop
  | [] => True
  | e :: es => e.pos = pos ∧ entriesChained (pos + e.size) es

theorem readBytes_isSome (data : Bytes) (off n : Nat) (bs : Bytes)
    (h : readBytes data off n = some bs) :
    off + n ≤ data.length ∧ bs = sliceBytes data off n := by
  unfold readBytes at h
  split at h
  · exact ⟨by assumption, (Option.some.inj h).symm⟩
  · exact absurd h (by simp)

theorem readBytes_pos (data : Bytes) (off n : Nat) (h : off + n ≤ data.length) :
    readBytes data off n = some (sliceBytes data off n) := by
  unfold readBytes
  rw [if_pos h]

theorem readBytes_none (data : Bytes) (off n : Nat) (h : data.length < off + n) :
    readBytes data off n = none := by
  unfold readBytes
  rw [if_neg (by omega)]

theorem getRTComponentData_ok (data : Bytes) (pos fst : Nat) (cd : RTComponentData)
    (h : getRTComponentData data pos = .ok (fst, cd)) :
    fst = pos + 8 ∧ pos + 8 ≤ data.length := by
  unfold getRTComponentData at h
  split at h
  · exact absurd h (by simp)
  · rename_i bs hr
    cases h
    exact ⟨rfl, (readBytes_isSome data pos 8 bs hr).1⟩

theorem dirEntries_succ_ok (data : Bytes) (n pos : Nat) (es : List DirEntry)
    (h : dirEntries data (n + 1) pos = .ok es) :
    ∃ fst cd k es', getRTComponentData data pos = .ok (fst, cd) ∧
      ofTag cd.typeTag = some k ∧
      dirEntries data n (pos + cd.size) = .ok es' ∧
      es = ⟨pos, cd.size, k⟩ :: es' := by
  simp only [dirEntries] at h
  split at h
  · exact absurd h (by simp)
  · rename_i fst cd hg
    split at h
    · exact absurd h (by simp)
    · rename_i k ht
      split at h
      · exact absurd h (by simp)
      · rename_i es' hd
        cases h
        exact ⟨fst, cd, k, es', hg, ht, hd, rfl⟩

theorem dirEntries_chained (data : Bytes) :
    ∀ n pos es, dirEntries data n pos = .ok es → entriesChained pos es := by
  intro n
  induction n with
  | zero =>
    intro pos es h
    simp only [dirEntries] at h
    cases h
    trivial
  | succ n ih =>
    intro pos es h
    obtain ⟨fst, cd, k, es', hg, ht, hd, rfl⟩ := dirEntries_succ_ok data n pos es h
    exact ⟨rfl, ih _ _ hd⟩

theorem dirEntries_inBounds (data : Bytes) :
    ∀ n pos es, dirEntries data n pos = .ok es →
    ∀ e ∈ es, e.pos + 8 ≤ data.length := by
  intro n
  induction n with
  | zero =>
    intro pos es h
    simp only [dirEntries] at h
    cases h
    simp
  | succ n ih =>
    intro pos es h
    obtain ⟨fst, cd, k, es', hg, ht, hd, rfl⟩ := dirEntries_succ_ok data n pos es h
    intro e he
    rcases List.mem_cons.mp he with rfl | he'
    · exact (getRTComponentData_ok data pos fst cd hg).2
    · exact ih _ _ hd e he'

theorem scanComponents_eq_dirEntries (data : Bytes) :
    ∀ n pos acc, scanComponents data n pos acc =
      (dirEntries data n pos).map (fun es => (es.map entryBinding).reverse ++ acc) := by
  intro n
  induction n with
  | zero =>
    intro pos acc
    simp [scanComponents, dirEntries, Except.map]
  | succ n ih =>
    intro pos acc
    simp only [scanComponents, dirEntries]
    cases hg : getRTComponentData data pos
    · rfl
    case ok v =>
      obtain ⟨fst, cd⟩ := v
      dsimp only
      cases ht : ofTag cd.typeTag
      · rfl
      case some k =>
        dsimp only
        rw [ih]
        cases hd : dirEntries data n (pos + cd.size)
        · rfl
        case ok es =>
          simp [Except.map, entryBinding, List.append_assoc]

theorem dictGet_entryBindings (es : List DirEntry) (k : QRTComponentType) :
    dictGet ((es.map entryBinding).reverse) k =
      (es.reverse.find? (fun e => e.kind == k)).map (fun e => e.pos + 8) := by
  simp only [dictGet, ← List.map_reverse, List.find?_map, Option.map_map]
  rfl

/-- C3: for every buffer whose 16-byte header and directory entries are
readable, `QRTPacket.__init__` records for each directory entry the
payload offset `entry offset + 8`, advances the scan cursor by exactly
the entry's declared size, and when the same kind tag appears in more
than one entry the directory maps that kind to the offset from the last
such entry (dict assignment overwrites). -/
theorem claim_C3 (data : Bytes) (p : QRTPacket) (es : List DirEntry)
    (hp : packetInit data = .ok p)
    (hes : dirEntries data (u32 (sliceBytes data 0 16) 12) 16 = .ok es) :
    p.components = (es.map entryBinding).reverse ∧
    entriesChained 16 es ∧
    ∀ k, dictGet p.components k =
      (es.reverse.find? (fun e => e.kind == k)).map (fun e => e.pos + 8) := by
  have hcomp : p.components = (es.map entryBinding).reverse := by
    unfold packetInit at hp
    split at hp
    · exact absurd hp (by simp)
    · rename_i hs hb
      have hhs : hs = sliceBytes data 0 16 := (readBytes_isSome data 0 16 hs hb).2
      rw [scanComponents_eq_dirEntries, hhs, hes] at hp
      simp only [Except.map] at hp
      cases hp
      simp
  refine ⟨hcomp, dirEntries_chained data _ _ _ hes, fun k => ?_⟩
  rw [hcomp, dictGet_entryBindings]

/-- Buffer with two directory entries of the same kind: 16-byte header
with component count 2, an entry of size 9 and tag 1 at offset 16 (one
payload byte), and an entry of size 8 and tag 1 at offset 25. -/
def bufC3 : Bytes :=
  [0,0,0,0,0,0,0,0, 0,0,0,0, 2,0,0,0,
   9,0,0,0, 1,0,0,0, 0,
   8,0,0,0, 1,0,0,0]

def pktC3 : QRTPacket := ⟨bufC3, 0, 0, [(.Component3d, 33), (.Component3d, 24)]⟩

def esC3 : List DirEntry := [⟨16, 9, .Component3d⟩, ⟨25, 8, .Component3d⟩]

/-- Witness for C3 at a concrete buffer with a duplicated kind: the
directory keeps the last occurrence's offset. -/
theorem claim_C3_witness :
    pktC3.components = (esC3.map entryBinding).reverse ∧
    entriesChained 16 esC3 ∧
    ∀ k, dictGet pktC3.components k =
      (esC3.reverse.find? (fun e => e.kind == k)).map (fun e => e.pos + 8) :=
  claim_C3 bufC3 pktC3 esC3 (by rfl) (by rfl)

/-- Buffer whose single directory entry declares a 100-byte span in a
24-byte buffer. -/
def bufC4 : Bytes :=
  [0,0,0,0,0,0,0,0, 0,0,0,0, 1,0,0,0,
   100,0,0,0, 1,0,0,0]

def pktC4 : QRTPacket := ⟨bufC4, 0, 0, [(.Component3d, 24)]⟩

/-- C4 counterexample: the entry at offset 16 declares size 100, whose
span `16 + 100` extends far past the 24-byte buffer end, yet header
construction succeeds — it does not fail with a truncated-directory
error, refuting the claim that construction fails whenever an entry's
declared span extends past the buffer end. -/
theorem claim_C4_cex :
    dirEntries bufC4 1 16 = .ok [⟨16, 100, .Component3d⟩] ∧
    bufC4.length = 24 ∧
    bufC4.length < 16 + 100 ∧
    packetInit bufC4 = .ok pktC4 :=
  ⟨rfl, rfl, by decide, rfl⟩

/-- C4 (amended): header construction fails with the truncated error
when the 16-byte header cannot be read or when some 8-byte directory
entry itself extends past the buffer end; when all entries are readable,
construction succeeds with every entry within bounds — the span declared
by an entry's `size` field is never bounds-checked. -/
theorem claim_C4_amended :
    (∀ data : Bytes, data.length < 16 → packetInit data = .error .truncated) ∧
    (∀ data : Bytes, 16 ≤ data.length →
      dirEntries data (u32 (sliceBytes data 0 16) 12) 16 = .error .truncated →
      packetInit data = .error .truncated) ∧
    (∀ (data : Bytes) (es : List DirEntry),
      dirEntries data (u32 (sliceBytes data 0 16) 12) 16 = .ok es →
      ∀ e ∈ es, e.pos + 8 ≤ data.length) := by
  refine ⟨fun data h => ?_, fun data h16 hdir => ?_, fun data es hes => ?_⟩
  · unfold packetInit
    rw [readBytes_none data 0 16 (by omega)]
  · unfold packetInit
    rw [readBytes_pos data 0 16 (by omega)]
    dsimp only
    rw [scanComponents_eq_dirEntries, hdir]
    rfl
  · exact dirEntries_inBounds data _ _ es hes

/-- Sixteen-byte buffer announcing one component but containing no
directory entry. -/
def bufC4w : Bytes := [0,0,0,0,0,0,0,0, 0,0,0,0, 1,0,0,0]

/-- Witness for the amended C4 at concrete buffers: an empty buffer and
a header-only buffer fail with the truncated error, and the readable
entry of `bufC4` lies within bounds. -/
theorem claim_C4_amended_witness :
    packetInit ([] : Bytes) = .error .truncated ∧
    packetInit bufC4w = .error .truncated ∧
    ∀ e ∈ [(⟨16, 100, .Component3d⟩ : DirEntry)], e.pos + 8 ≤ bufC4.length :=
  ⟨claim_C4_amended.1 [] (by decide),
   claim_C4_amended.2.1 bufC4w (by decide) (by rfl),
   claim_C4_amended.2.2 bufC4 [⟨16, 100, .Component3d⟩] (by rfl)⟩

/-- Valid 33-byte packet with a single 3D component: marker_count 0 and
one slack byte inside the declared 17-byte span (entry sizes sum, plus
the 16-byte header, to the exact buffer length). -/
def buf3dSlack : Bytes :=
  [0,0,0,0,0,0,0,0, 0,0,0,0, 1,0,0,0,
   17,0,0,0, 1,0,0,0,
   0,0,0,0, 0,0, 0,0,
   7]

def pkt3dSlack : QRTPacket := ⟨buf3dSlack, 0, 0, [(.Component3d, 24)]⟩

def pkt3dSlackT : QRTPacket := ⟨buf3dSlack.take 32, 0, 0, [(.Component3d, 24)]⟩

/-- C2 counterexample: `buf3dSlack` is a valid 33-byte packet (it
constructs, its single component decodes, and its directory sizes plus
the 16-byte header sum to the exact buffer length), yet the 32-byte
truncation also constructs and decodes successfully — decoding does not
fail with a truncated error, refuting the claim that truncating any
valid packet to N−1 bytes causes a decoding failure. -/
theorem claim_C2_cex :
    buf3dSlack.length = 33 ∧
    dirEntries buf3dSlack 1 16 = .ok [⟨16, 17, .Component3d⟩] ∧
    16 + 17 = buf3dSlack.length ∧
    packetInit buf3dSlack = .ok pkt3dSlack ∧
    get3dMarkers pkt3dSlack = .ok (some (⟨0, 0, 0⟩, [])) ∧
    packetInit (buf3dSlack.take 32) = .ok pkt3dSlackT ∧
    get3dMarkers pkt3dSlackT = .ok (some (⟨0, 0, 0⟩, [])) :=
  ⟨rfl, rfl, rfl, rfl, rfl, rfl, rfl⟩

/-- C5: for every decoded packet and component kind, the ComponentGetter
dispatcher returns the "not present" result None without error — and
independently of the buffer contents — when the kind is absent from the
directory; when the kind is present it returns the pair of the kind's
fixed header record (decoded by the kind's base struct at the recorded
offset) and the payload decoded from the position just after it. -/
theorem claim_C5 (I A : Type) (p : QRTPacket) (kind : QRTComponentType)
    (base : Bytes → Nat → Except DecodeError (Nat × I))
    (dec : I → Bytes → Nat → Except DecodeError A) :
    (dictGet p.components kind = none →
      componentGetter p kind base dec = .ok none ∧
      ∀ d' : Bytes,
        componentGetter ⟨d', p.timestamp, p.framenumber, p.components⟩ kind base dec =
          .ok none) ∧
    (∀ off pos' info a, dictGet p.components kind = some off →
      base p.data off = .ok (pos', info) →
      dec info p.data pos' = .ok a →
      componentGetter p kind base dec = .ok (some (info, a))) := by
  constructor
  · intro habs
    constructor
    · unfold componentGetter
      rw [habs]
    · intro d'
      unfold componentGetter
      dsimp only
      rw [habs]
  · intro off pos' info a hoff hbase hdec
    unfold componentGetter
    rw [hoff]
    dsimp only
    rw [hbase]
    dsimp only
    rw [hdec]

/-- Witness for C5 at `pkt3dSlack`: the 3D kind is present and decodes
to its header and empty marker list; the image kind is absent and yields
None. -/
theorem claim_C5_witness :
    componentGetter pkt3dSlack .Component3d getRT3DComponent
      (fun info data pos => (markers3dWalk data info.marker_count pos).map (fun r => r.1)) =
      .ok (some (⟨0, 0, 0⟩, [])) ∧
    componentGetter pkt3dSlack .ComponentImage getRTImageComponent
      (fun info data pos => (imagesWalk data info.image_count.toNat pos).map (fun r => r.1)) =
      .ok none :=
  ⟨(claim_C5 _ _ pkt3dSlack .Component3d _ _).2 24 32 ⟨0, 0, 0⟩ [] rfl rfl rfl,
   ((claim_C5 _ _ pkt3dSlack .ComponentImage _ _).1 rfl).1⟩

/-- Packet with one image component: image_count 1, a 36-byte image
header with image_size 4, and a 4-byte payload `[1,2,3,4]` ending the
68-byte buffer. -/
def bufImage : Bytes :=
  [0,0,0,0,0,0,0,0, 0,0,0,0, 1,0,0,0,
   52,0,0,0, 14,0,0,0,
   1,0,0,0,
   1,0,0,0, 2,0,0,0, 3,0,0,0, 4,0,0,0,
   0,0,0,0, 0,0,0,0, 0,0,0,0, 0,0,0,0,
   4,0,0,0,
   1,2,3,4]

def pktImage : QRTPacket := ⟨bufImage, 0, 0, [(.ComponentImage, 24)]⟩

def imgHdr : RTImage := ⟨1, 2, 3, 4, 0, 0, 0, 0, 4⟩

/-- C1 (code bug exhibited): on a packet whose single image declares
image_size 4 and is followed by exactly the 4 payload bytes `[1,2,3,4]`,
`get_image` returns the payload `[1,2,3]` — the slice
`data[position:-1]`, which unconditionally drops the buffer's final byte
— instead of the `image_size` bytes `[1,2,3,4]`, and the loop's position
stays at 64 (just past the header) instead of advancing past the
payload to 68. -/
theorem claim_C1_bug :
    packetInit bufImage = .ok pktImage ∧
    getImage pktImage = .ok (some (⟨1⟩, [(imgHdr, [1, 2, 3])])) ∧
    imagesWalk bufImage 1 28 = .ok ([(imgHdr, [1, 2, 3])], 64) ∧
    imgHdr.image_size = 4 ∧
    sliceBytes bufImage 64 4 = [1, 2, 3, 4] ∧
    ([1, 2, 3] : Bytes) ≠ [1, 2, 3, 4] ∧
    (64 : Nat) ≠ 64 + 4 :=
  ⟨rfl, rfl, rfl, rfl, rfl, by decide, by decide⟩

/-- Packet with one 2D component: 3 cameras with marker counts
`[2, 0, 1]`; `st` is camera 2's status-flag byte (buffer index 70). -/
def buf2d (st : Nat) : Bytes :=
  [0,0,0,0,0,0,0,0, 0,0,0,0, 1,0,0,0,
   67,0,0,0, 7,0,0,0,
   3,0,0,0, 0,0, 0,0,
   2,0,0,0, 5,
   1,0,0,0, 2,0,0,0, 3,0, 4,0,
   5,0,0,0, 6,0,0,0, 7,0, 8,0,
   0,0,0,0, 6,
   1,0,0,0, st,
   9,0,0,0, 10,0,0,0, 11,0, 12,0]

/-- Construct the packet and request the 2D component for camera 2. -/
def decode2dCam2 (data : Bytes) :
    Except DecodeError (Option (RT2DComponent × List (List RT2DMarker))) :=
  match packetInit data with
  | .error e => .error e
  | .ok p => get2dMarkers p (some 2)

/-- Construct the packet and request the full 2D component. -/
def decode2dAll (data : Bytes) :
    Except DecodeError (Option (RT2DComponent × List (List RT2DMarker))) :=
  match packetInit data with
  | .error e => .error e
  | .ok p => get2dMarkers p none

/-- C7 counterexample: the two buffers differ exactly in camera 2's
status-flag byte, yet requesting camera index 2 yields identical
results — the decode result does not include (or even depend on) camera
2's status flag, refuting the claim that the request yields the marker
list "and its status flag". -/
theorem claim_C7_cex :
    buf2d 42 = (buf2d 9).set 70 42 ∧
    (buf2d 9).getD 70 0 = 9 ∧
    buf2d 9 ≠ buf2d 42 ∧
    decode2dCam2 (buf2d 9) = decode2dCam2 (buf2d 42) :=
  ⟨rfl, rfl, by decide, rfl⟩

/-- C7 (amended): for the 2D component with camera marker counts
`[2, 0, 1]`, requesting camera index 2 yields exactly camera 2's marker
list and nothing else (no markers of other cameras are materialized);
the per-camera status flag is consumed for offset advancement but is not
part of the result. -/
theorem claim_C7_amended :
    decode2dCam2 (buf2d 9) =
      .ok (some (⟨3, 0, 0⟩, [[⟨9, 10, 11, 12⟩]])) ∧
    decode2dAll (buf2d 9) =
      .ok (some (⟨3, 0, 0⟩,
        [[⟨1, 2, 3, 4⟩, ⟨5, 6, 7, 8⟩], [], [⟨9, 10, 11, 12⟩]])) :=
  ⟨rfl, rfl⟩

/-- Five-byte 2D camera section whose signed marker_count is −1
(bytes `ff ff ff ff`). -/
def data2dNeg : Bytes := [255, 255, 255, 255, 7]

/-- C6 counterexample: with a single camera whose signed marker_count is
−1 and a requested index that matches no camera, the skip arithmetic
`pos + 12 * marker_count` rewinds the offset to −7 while the full decode
(whose `range(-1)` loop is empty) ends at offset 5 — the filtered
decode's final offset differs from the full decode's, refuting the
offset-equivalence claim for every component and index. -/
theorem claim_C6_cex :
    walk2d data2dNeg (some 5) 0 1 0 = .ok ([], -7) ∧
    walk2d data2dNeg none 0 1 0 = .ok ([[]], 5) ∧
    ((-7 : Int) ≠ 5) :=
  ⟨rfl, rfl, by decide⟩

theorem getRT2DMarker_ok (data : Bytes) (pos pos' : Int) (m : RT2DMarker)
    (h : getRT2DMarker data pos = .ok (pos', m)) : pos' = pos + 12 := by
  unfold getRT2DMarker at h
  split at h
  · exact absurd h (by simp)
  · cases h
    rfl

theorem read2dMarkers_final (data : Bytes) :
    ∀ n pos ms e, read2dMarkers data n pos = .ok (ms, e) →
      e = pos + 12 * n ∧ ms.length = n := by
  intro n
  induction n with
  | zero =>
    intro pos ms e h
    simp only [read2dMarkers] at h
    cases h
    exact ⟨by simp, rfl⟩
  | succ n ih =>
    intro pos ms e h
    simp only [read2dMarkers] at h
    split at h
    · exact absurd h (by simp)
    · rename_i pos' m hm
      split at h
      · exact absurd h (by simp)
      · rename_i ms' e' hr
        cases h
        have h12 := getRT2DMarker_ok data pos pos' m hm
        obtain ⟨he, hl⟩ := ih pos' ms' _ hr
        constructor
        · rw [he, h12]
          push_cast
          ring
        · simp [hl]

/-- Every camera section reachable by the walk has a non-negative signed
marker_count (vacuously true past a failing camera read). -/
def camerasNonneg (data : Bytes) : Nat → Int → Bool
  | 0, _ => true
  | n + 1, pos =>
    match getRT2DCamera data pos with
    | .error _ => true
    | .ok (pos₁, ci) =>
      decide (0 ≤ ci.marker_count) && camerasNonneg data n (pos₁ + 12 * ci.marker_count)

/-- C6 (amended): when the full decode of a 2D component succeeds and
every camera's signed marker_count is non-negative, the camera-filtered
decode also succeeds and its final offset is byte-identical to the full
decode's final offset.  (The counterexample shows the restriction to
non-negative marker counts is necessary.) -/
theorem claim_C6_amended (data : Bytes) :
    ∀ n cam pos ms e, walk2d data none cam n pos = .ok (ms, e) →
      camerasNonneg data n pos = true →
      ∀ idx : Int, ∃ ms', walk2d data (some idx) cam n pos = .ok (ms', e) := by
  intro n
  induction n with
  | zero =>
    intro cam pos ms e h _ idx
    cases h
    exact ⟨[], rfl⟩
  | succ n ih =>
    intro cam pos ms e h hnn idx
    simp only [walk2d] at h
    split at h
    · exact absurd h (by simp)
    · rename_i pos₁ ci hc
      rw [if_pos (by simp)] at h
      split at h
      · exact absurd h (by simp)
      · rename_i ms₀ pos₂ hm
        split at h
        · exact absurd h (by simp)
        · rename_i rest e' hw
          cases h
          simp only [camerasNonneg, hc, Bool.and_eq_true, decide_eq_true_eq] at hnn
          obtain ⟨hmc, hnn'⟩ := hnn
          have hfin := (read2dMarkers_final data ci.marker_count.toNat pos₁ ms₀ pos₂ hm).1
          have hpos2 : pos₂ = pos₁ + 12 * ci.marker_count := by
            rw [hfin]
            congr 1
            omega
          have hnn2 : camerasNonneg data n pos₂ = true := by
            rw [hpos2]
            exact hnn'
          obtain ⟨ms', hms'⟩ := ih (cam + 1) pos₂ rest _ hw hnn2 idx
          by_cases hidx : idx = (cam : Int)
          · refine ⟨ms₀ :: ms', ?_⟩
            simp only [walk2d, hc]
            rw [if_pos (Or.inr (by rw [hidx]))]
            simp only [hm, hms']
          · refine ⟨ms', ?_⟩
            simp only [walk2d, hc]
            rw [if_neg (by simp [hidx])]
            rw [← hpos2]
            exact hms'

/-- Witness for the amended C6 at the concrete `[2, 0, 1]` 2D component:
the filtered walk for camera 2 ends at the full walk's final offset 83. -/
theorem claim_C6_amended_witness :
    ∃ ms', walk2d (buf2d 9) (some 2) 0 3 32 = .ok (ms', 83) :=
  claim_C6_amended (buf2d 9) 3 0 32
    [[⟨1, 2, 3, 4⟩, ⟨5, 6, 7, 8⟩], [], [⟨9, 10, 11, 12⟩]] 83 (by rfl) (by rfl) 2

theorem getRTAnalogDevice_ok (data : Bytes) (pos pos₁ : Nat) (dev : RTAnalogDevice)
    (h : getRTAnalogDevice data pos = .ok (pos₁, dev)) : pos₁ = pos + 12 := by
  unfold getRTAnalogDevice at h
  split at h
  · exact absurd h (by simp)
  · cases h
    rfl

theorem getRTSampleNumber_ok (data : Bytes) (pos pos₁ : Nat) (sn : RTSampleNumber)
    (h : getRTSampleNumber data pos = .ok (pos₁, sn)) : pos₁ = pos + 4 := by
  unfold getRTSampleNumber at h
  split at h
  · exact absurd h (by simp)
  · cases h
    rfl

/-- C8: in `get_analog`, a device whose header reports sample_count = 0
consumes no sample-number record and no channel arrays: the device step
emits no triples, leaves the shared channel format untouched, and
advances exactly past the fixed 12-byte device record, so the walk over
n+1 devices continues as the walk over n devices from offset pos + 12. -/
theorem claim_C8 (fmt : Option Nat) (data : Bytes) (pos pos₁ : Nat)
    (dev : RTAnalogDevice)
    (hdev : getRTAnalogDevice data pos = .ok (pos₁, dev))
    (hsc : dev.sample_count = 0) :
    analogDeviceStep fmt data pos = .ok ([], pos + 12, fmt) ∧
    ∀ n, analogDevicesWalk data (n + 1) fmt pos = analogDevicesWalk data n fmt (pos + 12) := by
  have h12 : pos₁ = pos + 12 := getRTAnalogDevice_ok data pos pos₁ dev hdev
  have hstep : analogDeviceStep fmt data pos = .ok ([], pos + 12, fmt) := by
    unfold analogDeviceStep
    rw [hdev]
    dsimp only
    rw [if_neg (by simp [hsc]), h12]
  refine ⟨hstep, fun n => ?_⟩
  simp only [analogDevicesWalk]
  rw [hstep]
  dsimp only
  cases hw : analogDevicesWalk data n fmt (pos + 12)
  · rfl
  case ok v =>
    obtain ⟨rest, e, f⟩ := v
    simp

/-- Twelve-byte analog device record with sample_count 0. -/
def devZeroSamples : Bytes := [1,0,0,0, 2,0,0,0, 0,0,0,0]

/-- Witness for C8 at a concrete device record with sample_count 0. -/
theorem claim_C8_witness :
    analogDeviceStep none devZeroSamples 0 = .ok ([], 12, none) ∧
    analogDevicesWalk devZeroSamples 1 none 0 = analogDevicesWalk devZeroSamples 0 none 12 := by
  have h := claim_C8 none devZeroSamples 0 12 ⟨1, 2, 0⟩ rfl rfl
  exact ⟨h.1, h.2 0⟩

theorem exceptMap_comp {ε α β γ : Type} (x : Except ε α) (f : α → β) (g : β → γ) :
    (x.map f).map g = x.map (fun a => g (f a)) := by
  cases x <;> rfl

/-- One `get_analog` device step, projected on its observable output
(the triples and the final offset), does not depend on the incoming
shared-format binding: the step either leaves it untouched without using
it, or rebinds it before any use. -/
theorem analogDeviceStep_fmt_indep (f g : Option Nat) (data : Bytes) (pos : Nat) :
    (analogDeviceStep f data pos).map (fun r => (r.1, r.2.1)) =
      (analogDeviceStep g data pos).map (fun r => (r.1, r.2.1)) := by
  unfold analogDeviceStep
  cases hdev : getRTAnalogDevice data pos
  · rfl
  case ok v =>
    obtain ⟨pos₁, dev⟩ := v
    dsimp only
    by_cases hsc : 0 < dev.sample_count
    · rw [if_pos hsc, if_pos hsc]
    · rw [if_neg hsc, if_neg hsc]
      rfl

/-- The `get_analog` device loop, projected on its observable output, is
independent of the incoming shared-format binding. -/
theorem analogDevicesWalk_fmt_indep (data : Bytes) :
    ∀ (n : Nat) (f g : Option Nat) (pos : Nat),
      (analogDevicesWalk data n f pos).map (fun r => (r.1, r.2.1)) =
        (analogDevicesWalk data n g pos).map (fun r => (r.1, r.2.1)) := by
  intro n
  induction n with
  | zero =>
    intro f g pos
    rfl
  | succ n ih =>
    intro f g pos
    simp only [analogDevicesWalk]
    have hs := analogDeviceStep_fmt_indep f g data pos
    cases hf : analogDeviceStep f data pos <;> cases hg : analogDeviceStep g data pos <;>
        rw [hf, hg] at hs
    · simp only [Except.map, Except.error.injEq] at hs
      rw [hs]
    · exact absurd hs (by simp [Except.map])
    · exact absurd hs (by simp [Except.map])
    case ok.ok vf vg =>
      obtain ⟨tf, pf, ff⟩ := vf
      obtain ⟨tg, pg, fg⟩ := vg
      simp only [Except.map, Except.ok.injEq, Prod.mk.injEq] at hs
      obtain ⟨ht, hp⟩ := hs
      subst ht hp
      dsimp only
      have hw := ih ff fg pf
      cases h1 : analogDevicesWalk data n ff pf <;> cases h2 : analogDevicesWalk data n fg pf <;>
          rw [h1, h2] at hw
      · simp only [Except.map, Except.error.injEq] at hw
        rw [hw]
      · exact absurd hw (by simp [Except.map])
      · exact absurd hw (by simp [Except.map])
      case ok.ok w1 w2 =>
        obtain ⟨r1, e1, f1⟩ := w1
        obtain ⟨r2, e2, f2⟩ := w2
        simp only [Except.map, Except.ok.injEq, Prod.mk.injEq] at hw
        obtain ⟨hr, he⟩ := hw
        simp [Except.map, hr, he]

/-- The `get_analog_single` device loop never reads the incoming
shared-format binding: every path rebinds it (or fails) before use. -/
theorem analogSingleWalk_fmt_indep (data : Bytes) :
    ∀ (n : Nat) (f g : Option Nat) (pos : Nat),
      (analogSingleWalk data n f pos).map (fun r => (r.1, r.2.1)) =
        (analogSingleWalk data n g pos).map (fun r => (r.1, r.2.1)) := by
  intro n
  induction n with
  | zero =>
    intro f g pos
    rfl
  | succ n ih =>
    intro f g pos
    simp only [analogSingleWalk]

/-- C9: `get_analog` and `get_analog_single` are deterministic functions
of the buffer and the directory alone: their results are unaffected by
whatever binding of the shared channel/sample format descriptors was
left behind by earlier decode calls, so decoding the same buffer twice
yields identical results. -/
theorem claim_C9 (f g : Option Nat) (p : QRTPacket) :
    getAnalog f p = getAnalog g p ∧ getAnalogSingle f p = getAnalogSingle g p := by
  constructor
  · unfold getAnalog componentGetter
    cases hoff : dictGet p.components .ComponentAnalog
    · rfl
    case some pos =>
      dsimp only
      cases hbase : getRTAnalogComponent p.data pos
      · rfl
      case ok v =>
        obtain ⟨pos', info⟩ := v
        dsimp only
        have h := analogDevicesWalk_fmt_indep p.data info.device_count.toNat f g pos'
        have h1 := congrArg (Except.map (fun q => q.1)) h
        simp only [exceptMap_comp] at h1
        rw [h1]
  · unfold getAnalogSingle componentGetter
    cases hoff : dictGet p.components .ComponentAnalogSingle
    · rfl
    case some pos =>
      dsimp only
      cases hbase : getRTAnalogComponent p.data pos
      · rfl
      case ok v =>
        obtain ⟨pos', info⟩ := v
        dsimp only
        have h := analogSingleWalk_fmt_indep p.data info.device_count.toNat f g pos'
        have h1 := congrArg (Except.map (fun q => q.1)) h
        simp only [exceptMap_comp] at h1
        rw [h1]

/-- Declarative, nested view of the multi-sample analog payload: per
device, the device record and — when sample_count > 0 — its sample
number and the list of its channels. -/
def analogNested (data : Bytes) :
    Nat → Nat →
    Except DecodeError
      (List (RTAnalogDevice × Option (RTSampleNumber × List RTAnalogChannel)) × Nat)
  | 0, pos => .ok ([], pos)
  | n + 1, pos =>
    match getRTAnalogDevice data pos with
    | .error e => .error e
    | .ok (pos₁, dev) =>
      if 0 < dev.sample_count then
        match getRTSampleNumber data pos₁ with
        | .error e => .error e
        | .ok (pos₂, sn) =>
          match readChannels (some dev.sample_count.toNat) data dev.channel_count.toNat pos₂ with
          | .error e => .error e
          | .ok (chs, pos₃) =>
            match analogNested data n pos₃ with
            | .error e => .error e
            | .ok (rest, e) => .ok ((dev, some (sn, chs)) :: rest, e)
      else
        match analogNested data n pos₁ with
        | .error e => .error e
        | .ok (rest, e) => .ok ((dev, none) :: rest, e)

/-- Flatten the nested analog view into `get_analog`'s output: one
`(device, sample number, channel)` triple per channel, in device order
then channel order, the device and sample-number records repeated per
channel; a device without a dynamic section contributes nothing. -/
def flattenAnalog :
    List (RTAnalogDevice × Option (RTSampleNumber × List RTAnalogChannel)) →
    List (RTAnalogDevice × RTSampleNumber × RTAnalogChannel)
  | [] => []
  | (_, none) :: rest => flattenAnalog rest
  | (d, some (sn, chs)) :: rest => chs.map (fun c => (d, sn, c)) ++ flattenAnalog rest

theorem analogWalk_eq_nested (data : Bytes) :
    ∀ (n : Nat) (fmt : Option Nat) (pos : Nat),
      (analogDevicesWalk data n fmt pos).map (fun r => (r.1, r.2.1)) =
        (analogNested data n pos).map (fun r => (flattenAnalog r.1, r.2)) := by
  intro n
  induction n with
  | zero =>
    intro fmt pos
    rfl
  | succ n ih =>
    intro fmt pos
    simp only [analogDevicesWalk, analogDeviceStep, analogNested]
    cases hdev : getRTAnalogDevice data pos
    · rfl
    case ok v =>
      obtain ⟨pos₁, dev⟩ := v
      dsimp only
      by_cases hsc : 0 < dev.sample_count
      · rw [if_pos hsc, if_pos hsc]
        cases hsn : getRTSampleNumber data pos₁
        · rfl
        · rename_i w
          obtain ⟨pos₂, sn⟩ := w
          dsimp only
          cases hch : readChannels (some dev.sample_count.toNat) data dev.channel_count.toNat pos₂
          · rfl
          · rename_i c
            obtain ⟨chs, pos₃⟩ := c
            dsimp only
            have hw := ih (some dev.sample_count.toNat) pos₃
            cases h1 : analogDevicesWalk data n (some dev.sample_count.toNat) pos₃ <;>
                cases h2 : analogNested data n pos₃ <;> rw [h1, h2] at hw
            · simp only [Except.map, Except.error.injEq] at hw
              simp [Except.map, hw]
            · exact absurd hw (by simp [Except.map])
            · exact absurd hw (by simp [Except.map])
            · rename_i w1 w2
              obtain ⟨r1, e1, f1⟩ := w1
              obtain ⟨r2, e2⟩ := w2
              simp only [Except.map, Except.ok.injEq, Prod.mk.injEq] at hw
              obtain ⟨hr, he⟩ := hw
              simp [Except.map, flattenAnalog, hr, he]
      · rw [if_neg hsc, if_neg hsc]
        dsimp only
        have hw := ih fmt pos₁
        cases h1 : analogDevicesWalk data n fmt pos₁ <;>
            cases h2 : analogNested data n pos₁ <;> rw [h1, h2] at hw
        · simp only [Except.map, Except.error.injEq] at hw
          simp [Except.map, hw]
        · exact absurd hw (by simp [Except.map])
        · exact absurd hw (by simp [Except.map])
        · rename_i w1 w2
          obtain ⟨r1, e1, f1⟩ := w1
          obtain ⟨r2, e2⟩ := w2
          simp only [Except.map, Except.ok.injEq, Prod.mk.injEq] at hw
          obtain ⟨hr, he⟩ := hw
          simp [Except.map, flattenAnalog, hr, he]

/-- C10: the multi-sample analog payload decoded by `get_analog` is the
flattening of the nested per-device view — one (device header, sample
number, channel) triple per channel, in device order then channel order,
with the device and sample-number records repeated in each triple of the
same device — and a device with sample_count > 0 but channel_count = 0
consumes its sample-number record (advancing to pos + 16) yet
contributes no element to the result. -/
theorem claim_C10 (data : Bytes) :
    (∀ (n : Nat) (fmt : Option Nat) (pos : Nat),
      (analogDevicesWalk data n fmt pos).map (fun r => (r.1, r.2.1)) =
        (analogNested data n pos).map (fun r => (flattenAnalog r.1, r.2))) ∧
    (∀ (fmt : Option Nat) (pos pos₁ pos₂ : Nat) (dev : RTAnalogDevice) (sn : RTSampleNumber),
      getRTAnalogDevice data pos = .ok (pos₁, dev) →
      0 < dev.sample_count →
      dev.channel_count = 0 →
      getRTSampleNumber data pos₁ = .ok (pos₂, sn) →
      analogDeviceStep fmt data pos = .ok ([], pos + 16, some dev.sample_count.toNat)) := by
  refine ⟨analogWalk_eq_nested data, ?_⟩
  intro fmt pos pos₁ pos₂ dev sn hdev hsc hcc hsn
  have h12 : pos₁ = pos + 12 := getRTAnalogDevice_ok data pos pos₁ dev hdev
  have h4 : pos₂ = pos₁ + 4 := getRTSampleNumber_ok data pos₁ pos₂ sn hsn
  unfold analogDeviceStep
  rw [hdev]
  dsimp only
  rw [if_pos hsc]
  rw [hsn]
  dsimp only
  rw [hcc]
  simp only [Int.toNat_zero, readChannels]
  simp [h4, h12]

/-- Packet with one multi-sample analog component: device_count 2, a
first device with sample_count 0, and a second device with two channels
of one sample each. -/
def bufAnalog : Bytes :=
  [0,0,0,0,0,0,0,0, 0,0,0,0, 1,0,0,0,
   48,0,0,0, 3,0,0,0,
   2,0,0,0,
   1,0,0,0, 2,0,0,0, 0,0,0,0,
   2,0,0,0, 2,0,0,0, 1,0,0,0,
   9,0,0,0,
   13,0,0,0, 14,0,0,0]

/-- The analog packet buffer decoded as a packet object. -/
def pktAnalog : QRTPacket := ⟨bufAnalog, 0, 0, [(.ComponentAnalog, 24)]⟩

/-- Witness for C9 at the concrete analog packet and two different
leftover format bindings. -/
theorem claim_C9_witness :
    getAnalog none pktAnalog = getAnalog (some 3) pktAnalog ∧
    getAnalogSingle none pktAnalog = getAnalogSingle (some 3) pktAnalog :=
  claim_C9 none (some 3) pktAnalog

/-- Sixteen-byte analog device record with channel_count 0 and
sample_count 1, followed by its sample-number record. -/
def devChan0 : Bytes := [1,0,0,0, 0,0,0,0, 1,0,0,0, 9,0,0,0]

/-- Witness for C10: the walk/nested equality evaluated on the concrete
analog packet, and the channel-less device step evaluated concretely. -/
theorem claim_C10_witness :
    ((analogDevicesWalk bufAnalog 2 none 28).map (fun r => (r.1, r.2.1)) =
      (analogNested bufAnalog 2 28).map (fun r => (flattenAnalog r.1, r.2))) ∧
    analogDeviceStep none devChan0 0 = .ok ([], 16, some 1) :=
  ⟨(claim_C10 bufAnalog).1 2 none 28,
   (claim_C10 devChan0).2 none 0 12 16 ⟨1, 0, 1⟩ ⟨9⟩ rfl (by decide) rfl rfl⟩

/-- Little-endian 4-byte encoding of a 32-bit value. -/
def encodeU32 (n : Nat) : Bytes :=
  [n % 256, n / 256 % 256, n / 65536 % 256, n / 16777216 % 256]

/-- Packet of exactly one tightly-sized 3D component with `k` markers:
the 16-byte header (timestamp 0, frame 0, component count 1), the
directory entry (size 16 + 12k, tag 1), the `RT3DComponent` header
(marker_count k, both rates 0), and the 12k marker bytes. -/
def mk3dPacket (k : Nat) (m : Bytes) : Bytes :=
  [0,0,0,0,0,0,0,0, 0,0,0,0, 1,0,0,0] ++
  ((encodeU32 (16 + 12 * k) ++ [1,0,0,0]) ++
    ((encodeU32 k ++ [0,0,0,0]) ++ m))

/-- Construct the packet, then request the 3D component. -/
def decode3d (data : Bytes) :
    Except DecodeError (Option (RT3DComponent × List RT3DMarkerPosition)) :=
  match packetInit data with
  | .error e => .error e
  | .ok p => get3dMarkers p

theorem leNat_encodeU32 (n : Nat) (h : n < 4294967296) :
    leNat (encodeU32 n) = n := by
  simp [leNat, encodeU32]
  omega

theorem sliceBytes_exact (a b : Bytes) (n : Nat) (h : a.length = n) :
    sliceBytes (a ++ b) 0 n = a := by
  subst h
  unfold sliceBytes
  rw [List.drop_zero, List.take_append_of_le_length (Nat.le_refl _),
    List.take_of_length_le (Nat.le_refl _)]

theorem sliceBytes_after (a b : Bytes) (i j n : Nat) (h : a.length + i = j) :
    sliceBytes (a ++ b) j n = sliceBytes b i n := by
  subst h
  unfold sliceBytes
  rw [List.drop_append]

theorem sliceBytes_take (l : Bytes) (m off n : Nat) (h : off + n ≤ m) :
    sliceBytes (l.take m) off n = sliceBytes l off n := by
  unfold sliceBytes
  rw [List.drop_take, List.take_take, Nat.min_eq_left (by omega)]

/-- The marker loop succeeds whenever its whole span is in bounds. -/
theorem markers3dWalk_ok (data : Bytes) :
    ∀ j pos, pos + 12 * j ≤ data.length →
      ∃ r, markers3dWalk data j pos = .ok r := by
  intro j
  induction j with
  | zero =>
    intro pos h
    exact ⟨([], pos), rfl⟩
  | succ j ih =>
    intro pos h
    simp only [markers3dWalk]
    unfold getRT3DMarkerPosition
    rw [readBytes_pos data pos 12 (by omega)]
    dsimp only
    obtain ⟨r, hr⟩ := ih (pos + 12) (by omega)
    obtain ⟨ms, e⟩ := r
    rw [hr]
    exact ⟨(⟨_, _, _⟩ :: ms, e), rfl⟩

/-- The marker loop fails with the truncated error whenever at least one
marker is requested and the span of the requested markers leaves the
buffer. -/
theorem markers3dWalk_fail (data : Bytes) :
    ∀ j pos, 1 ≤ j → data.length < pos + 12 * j →
      markers3dWalk data j pos = .error .truncated := by
  intro j
  induction j with
  | zero =>
    intro pos h0 h
    exact absurd h0 (by omega)
  | succ j ih =>
    intro pos h1 h
    simp only [markers3dWalk]
    unfold getRT3DMarkerPosition
    by_cases hb : pos + 12 ≤ data.length
    · rw [readBytes_pos data pos 12 hb]
      dsimp only
      rw [ih (pos + 12) (by omega) (by omega)]
    · rw [readBytes_none data pos 12 (by omega)]

/-- Header construction on a buffer whose header announces one component
and whose single directory entry carries tag 1 (the 3D kind). -/
theorem packetInit_entry3d (d : Bytes) (s : Nat)
    (h0 : sliceBytes d 0 16 = [0,0,0,0,0,0,0,0, 0,0,0,0, 1,0,0,0])
    (h16 : sliceBytes d 16 8 = encodeU32 s ++ [1,0,0,0])
    (hlen : 24 ≤ d.length) :
    packetInit d = .ok ⟨d, 0, 0, [(.Component3d, 24)]⟩ := by
  unfold packetInit
  rw [readBytes_pos d 0 16 (by omega)]
  dsimp only
  rw [h0]
  rw [show u32 [0,0,0,0,0,0,0,0,0,0,0,0,1,0,0,0] 12 = 1 from rfl]
  simp only [scanComponents]
  unfold getRTComponentData
  rw [readBytes_pos d 16 8 (by omega)]
  dsimp only
  rw [h16]
  rw [show u32 (encodeU32 s ++ [1,0,0,0]) 4 = 1 from rfl]
  rw [show ofTag 1 = some .Component3d from rfl]
  rfl

/-- Requesting the 3D component of a packet whose directory maps the 3D
kind to offset 24 and whose component header there has marker_count `k`
and zero rates reduces to the marker walk from offset 32. -/
theorem get3dMarkers_entry (d : Bytes) (k : Nat)
    (h24 : sliceBytes d 24 8 = encodeU32 k ++ [0,0,0,0])
    (hlen : 32 ≤ d.length) (hk : k < 4294967296) :
    get3dMarkers ⟨d, 0, 0, [(.Component3d, 24)]⟩ =
      (markers3dWalk d k 32).map (fun r => some (⟨k, 0, 0⟩, r.1)) := by
  unfold get3dMarkers componentGetter
  rw [show dictGet [(QRTComponentType.Component3d, 24)] .Component3d = some 24 from rfl]
  dsimp only
  unfold getRT3DComponent
  rw [readBytes_pos d 24 8 (by omega)]
  dsimp only
  rw [h24]
  have hu0 : u32 (encodeU32 k ++ [0, 0, 0, 0]) 0 = k := by
    have h : u32 (encodeU32 k ++ [0, 0, 0, 0]) 0 = leNat (encodeU32 k) := rfl
    rw [h, leNat_encodeU32 k hk]
  rw [hu0]
  rw [show i16 (encodeU32 k ++ [0, 0, 0, 0]) 4 = 0 from rfl]
  rw [show i16 (encodeU32 k ++ [0, 0, 0, 0]) 6 = 0 from rfl]
  rw [show (24 + 8 : Nat) = 32 from rfl]
  cases hw : markers3dWalk d k 32 <;> rfl

/-- C2 (amended): for every tightly-sized packet of a single 3D
component — the declared entry size 16 + 12k covers exactly the entry,
the component header and the k 12-byte markers, and the buffer length is
exactly the header plus that span — decoding the packet succeeds, while
decoding its truncation to the first N−1 bytes fails with the truncated
error.  (The counterexample shows the claim fails for packets with slack
in a declared span, and the image decoder never detects truncation, so
the general claim had to be restricted to tightly-decoding non-image
packets; it is proved here for the single-3D-component family.) -/
theorem claim_C2_amended (k : Nat) (mbytes : Bytes)
    (hk : k < 2 ^ 28) (hm : mbytes.length = 12 * k) :
    (mk3dPacket k mbytes).length = 32 + 12 * k ∧
    (∃ ms, decode3d (mk3dPacket k mbytes) = .ok (some (⟨k, 0, 0⟩, ms))) ∧
    decode3d ((mk3dPacket k mbytes).take ((mk3dPacket k mbytes).length - 1)) =
      .error .truncated := by
  have hlen : (mk3dPacket k mbytes).length = 32 + 12 * k := by
    simp [mk3dPacket, encodeU32, hm]
    omega
  have hb0 : sliceBytes (mk3dPacket k mbytes) 0 16 =
      [0,0,0,0,0,0,0,0, 0,0,0,0, 1,0,0,0] := by
    unfold mk3dPacket
    exact sliceBytes_exact _ _ 16 rfl
  have hb16 : sliceBytes (mk3dPacket k mbytes) 16 8 =
      encodeU32 (16 + 12 * k) ++ [1,0,0,0] := by
    unfold mk3dPacket
    rw [sliceBytes_after [0,0,0,0,0,0,0,0, 0,0,0,0, 1,0,0,0] _ 0 16 8 rfl]
    exact sliceBytes_exact _ _ 8 rfl
  have hb24 : sliceBytes (mk3dPacket k mbytes) 24 8 =
      encodeU32 k ++ [0,0,0,0] := by
    unfold mk3dPacket
    rw [sliceBytes_after [0,0,0,0,0,0,0,0, 0,0,0,0, 1,0,0,0] _ 8 24 8 rfl]
    rw [sliceBytes_after (encodeU32 (16 + 12 * k) ++ [1,0,0,0]) _ 0 8 8 (by simp [encodeU32])]
    exact sliceBytes_exact _ _ 8 rfl
  have hinit : packetInit (mk3dPacket k mbytes) =
      .ok ⟨mk3dPacket k mbytes, 0, 0, [(.Component3d, 24)]⟩ :=
    packetInit_entry3d _ (16 + 12 * k) hb0 hb16 (by omega)
  refine ⟨hlen, ?_, ?_⟩
  · obtain ⟨r, hr⟩ := markers3dWalk_ok (mk3dPacket k mbytes) k 32 (by omega)
    refine ⟨r.1, ?_⟩
    unfold decode3d
    rw [hinit]
    dsimp only
    rw [get3dMarkers_entry _ k hb24 (by omega) (by omega), hr]
    rfl
  · cases k with
    | zero =>
      have hmb : mbytes = [] := by
        simpa using hm
      subst hmb
      rfl
    | succ q =>
      have htlen :
          ((mk3dPacket (q + 1) mbytes).take ((mk3dPacket (q + 1) mbytes).length - 1)).length =
            31 + 12 * (q + 1) := by
        rw [List.length_take, hlen]
        omega
      have ht0 :
          sliceBytes ((mk3dPacket (q + 1) mbytes).take ((mk3dPacket (q + 1) mbytes).length - 1)) 0 16 =
            [0,0,0,0,0,0,0,0, 0,0,0,0, 1,0,0,0] := by
        rw [sliceBytes_take _ _ 0 16 (by rw [hlen]; omega)]
        exact hb0
      have ht16 :
          sliceBytes ((mk3dPacket (q + 1) mbytes).take ((mk3dPacket (q + 1) mbytes).length - 1)) 16 8 =
            encodeU32 (16 + 12 * (q + 1)) ++ [1,0,0,0] := by
        rw [sliceBytes_take _ _ 16 8 (by rw [hlen]; omega)]
        exact hb16
      have ht24 :
          sliceBytes ((mk3dPacket (q + 1) mbytes).take ((mk3dPacket (q + 1) mbytes).length - 1)) 24 8 =
            encodeU32 (q + 1) ++ [0,0,0,0] := by
        rw [sliceBytes_take _ _ 24 8 (by rw [hlen]; omega)]
        exact hb24
      have htinit := packetInit_entry3d _ (16 + 12 * (q + 1)) ht0 ht16 (by rw [htlen]; omega)
      unfold decode3d
      rw [htinit]
      dsimp only
      rw [get3dMarkers_entry _ (q + 1) ht24 (by rw [htlen]; omega) (by omega)]
      rw [markers3dWalk_fail _ (q + 1) 32 (by omega) (by rw [htlen]; omega)]
      rfl

/-- Witness for the amended C2 at a concrete one-marker packet. -/
theorem claim_C2_amended_witness :
    (mk3dPacket 1 [1,2,3,4,5,6,7,8,9,10,11,12]).length = 32 + 12 * 1 ∧
    (∃ ms, decode3d (mk3dPacket 1 [1,2,3,4,5,6,7,8,9,10,11,12]) =
      .ok (some (⟨1, 0, 0⟩, ms))) ∧
    decode3d ((mk3dPacket 1 [1,2,3,4,5,6,7,8,9,10,11,12]).take
        ((mk3dPacket 1 [1,2,3,4,5,6,7,8,9,10,11,12]).length - 1)) =
      .error .truncated :=
  claim_C2_amended 1 [1,2,3,4,5,6,7,8,9,10,11,12] (by decide) (by decide)

end Qtm
